import Mathlib

/-!
Verification of the Picqer middleware sync service
(`simplified-picqer-middleware.js`).

The program mirrors three entities (products, picklists, warehouses) from a
remote API into a SQL database.  We shallowly embed the stateful parts:

* the database is a `DBState` record of four tables modelled as lists of rows;
* external outcomes (what the remote fetch returns, whether each SQL statement
  succeeds, the clock) are an environment record threaded into each procedure;
* each sync procedure becomes a pure function `Env → DBState → SyncResult × DBState`;
* the rate-limited request queue is modelled by its drain loop, which produces
  the dispatch time of every queued request.
-/

/-- String constants of the program, bound to names once. -/
def productsE : String := "products"

def picklistsE : String := "picklists"

def warehousesE : String := "warehouses"

def successStr : String := "success"

def errPre : String := "error: "

def syncBusyMsg : String := "Sync already in progress"

def notSyncedStr : String := "Not synced yet"

def emptyStr : String := ""

/-- Remote product object as returned by the Picqer API (`getProducts`).
Fields the sync loop reads; `Option` marks fields the code defaults with
`|| …` when absent. -/
structure PicqerProduct where
  idproduct : Int
  name : String
  sku : Option String
  barcode : Option String
  price : Option Int
  stock : Option Int
  deriving Repr, DecidableEq

/-- Remote picklist object (`getPicklists`). -/
structure PicqerPicklist where
  idpicklist : Int
  status : Option String
  created : Nat
  completed : Option Nat
  warehouse_id : Option Int
  deriving Repr, DecidableEq

/-- Remote warehouse object (`getWarehouses`). -/
structure PicqerWarehouse where
  idwarehouse : Int
  name : String
  deriving Repr, DecidableEq

/-- Row of the `products` table (`CREATE TABLE products`). -/
structure ProductRow where
  id : Int
  idproduct : Int
  name : String
  sku : String
  barcode : String
  price : Int
  stock : Int
  sync_date : Nat
  deriving Repr, DecidableEq

/-- Row of the `picklists` table. -/
structure PicklistRow where
  id : Int
  idpicklist : Int
  status : String
  created : Nat
  completed : Option Nat
  warehouse_id : Int
  sync_date : Nat
  deriving Repr, DecidableEq

/-- Row of the `warehouses` table. -/
structure WarehouseRow where
  id : Int
  idwarehouse : Int
  name : String
  sync_date : Nat
  deriving Repr, DecidableEq

/-- Row of the `sync_status` table: one row per entity name. -/
structure SyncStatusRow where
  entity : String
  last_sync : Nat
  record_count : Nat
  status : String
  deriving Repr, DecidableEq

/-- The persisted database: the four tables created by `createTablesIfNotExist`. -/
structure DBState where
  products : List ProductRow
  picklists : List PicklistRow
  warehouses : List WarehouseRow
  syncStatus : List SyncStatusRow
  deriving Repr, DecidableEq

/-- Result value of one entity sync: `{success: true, count}` or
`{success: false, error}`. -/
inductive SyncResult where
  | ok (count : Nat)
  | err (msg : String)
  deriving Repr, DecidableEq

/-- The `success` field of a sync result object. -/
def resSuccess : SyncResult → Bool
  | SyncResult.ok _ => true
  | SyncResult.err _ => false

/-- Status string written by the error branch:
`'error: ' + error.message.substring(0, 255)`. -/
def errStatusStr (msg : String) : String := errPre ++ msg.take 255

/-- Lookup of the `sync_status` row of an entity (`WHERE entity = @entity`;
`entity` is the table's primary key, so the first match is the row). -/
def getStatus (db : DBState) (e : String) : Option SyncStatusRow :=
  db.syncStatus.find? (fun r => r.entity = e)

/-- The status-upsert executed on the success path of each sync:
`IF EXISTS … UPDATE sync_status SET last_sync = GETDATE(), record_count = @count,
status = 'success' WHERE entity = @entity ELSE INSERT …`. -/
def upsertSuccess (e : String) (now : Nat) (count : Nat)
    (l : List SyncStatusRow) : List SyncStatusRow :=
  if l.any (fun r => r.entity = e) then
    l.map (fun r => if r.entity = e then
      { r with last_sync := now, record_count := count, status := successStr } else r)
  else
    l ++ [{ entity := e, last_sync := now, record_count := count, status := successStr }]

/-- The status-upsert executed in the catch branch of each sync:
`IF EXISTS … UPDATE sync_status SET last_sync = GETDATE(),
status = 'error: ' + @error WHERE entity = @entity
ELSE INSERT … VALUES (@entity, GETDATE(), 0, 'error: ' + @error)`.
Note the UPDATE branch does not touch `record_count`. -/
def upsertError (e : String) (now : Nat) (msg : String)
    (l : List SyncStatusRow) : List SyncStatusRow :=
  if l.any (fun r => r.entity = e) then
    l.map (fun r => if r.entity = e then
      { r with last_sync := now, status := errStatusStr msg } else r)
  else
    l ++ [{ entity := e, last_sync := now, record_count := 0, status := errStatusStr msg }]

/-- Insert loop shared by the three syncs: for the record at queue index `i`,
the environment says whether its `INSERT` succeeds (`ok i`); a failing row is
logged and skipped (`insertedCount` is not incremented).  Returns the inserted
rows in fetch order together with `insertedCount`. -/
def insertLoop (ok : Nat → Bool) (f : α → β) : Nat → List α → List β × Nat
  | _, [] => ([], 0)
  | i, x :: xs =>
    let rest := insertLoop ok f (i + 1) xs
    if ok i then (f x :: rest.1, rest.2 + 1) else rest

/-- Mapping of a fetched product onto a `products` row, as in the insert of
`syncProducts` (`@id` = `product.idproduct`, `sku`/`barcode` default to the
empty string, `price`/`stock` default to 0, `sync_date` = `GETDATE()`). -/
def productToRow (now : Nat) (p : PicqerProduct) : ProductRow :=
  { id := p.idproduct, idproduct := p.idproduct, name := p.name,
    sku := Option.getD p.sku emptyStr, barcode := Option.getD p.barcode emptyStr,
    price := Option.getD p.price 0, stock := Option.getD p.stock 0,
    sync_date := now }

/-- Mapping of a fetched picklist onto a `picklists` row. -/
def picklistToRow (now : Nat) (p : PicqerPicklist) : PicklistRow :=
  { id := p.idpicklist, idpicklist := p.idpicklist,
    status := Option.getD p.status emptyStr, created := p.created,
    completed := p.completed, warehouse_id := Option.getD p.warehouse_id 0,
    sync_date := now }

/-- Mapping of a fetched warehouse onto a `warehouses` row. -/
def warehouseToRow (now : Nat) (w : PicqerWarehouse) : WarehouseRow :=
  { id := w.idwarehouse, idwarehouse := w.idwarehouse, name := w.name,
    sync_date := now }

/-- Environment of one `syncProducts` run: outcome of the Picqer fetch, of the
`DELETE FROM products` statement, of each per-row `INSERT` (by queue index),
of the success-path status upsert, of the catch-branch status upsert, and the
value of `GETDATE()`. -/
structure ProductsEnv where
  fetch : Except String (List PicqerProduct)
  deleteErr : Option String
  insertOk : Nat → Bool
  statusErr : Option String
  errStatusOk : Bool
  now : Nat

/-- Environment of one `syncPicklists` run. -/
structure PicklistsEnv where
  fetch : Except String (List PicqerPicklist)
  deleteErr : Option String
  insertOk : Nat → Bool
  statusErr : Option String
  errStatusOk : Bool
  now : Nat

/-- Environment of one `syncWarehouses` run. -/
structure WarehousesEnv where
  fetch : Except String (List PicqerWarehouse)
  deleteErr : Option String
  insertOk : Nat → Bool
  statusErr : Option String
  errStatusOk : Bool
  now : Nat

/-- Catch branch shared by the three syncs: try to upsert the error status; if
that upsert itself fails it is logged and swallowed (the database is then left
as it was). -/
def applyErrStatus (e : String) (errStatusOk : Bool) (now : Nat) (msg : String)
    (db : DBState) : DBState :=
  if errStatusOk then { db with syncStatus := upsertError e now msg db.syncStatus }
  else db

/-- The `syncProducts` procedure: fetch all products, delete all rows of
`products`, insert each fetched product (skipping rows whose insert fails),
upsert the success status, and return `{success: true, count}`.  Any failure of
fetch, delete, or the success-path status upsert lands in the catch branch,
which attempts the error upsert and returns `{success: false, error}`. -/
def syncProducts (env : ProductsEnv) (db : DBState) : SyncResult × DBState :=
  match env.fetch with
  | Except.error msg =>
      (SyncResult.err msg, applyErrStatus productsE env.errStatusOk env.now msg db)
  | Except.ok products =>
    match env.deleteErr with
    | some msg =>
        (SyncResult.err msg, applyErrStatus productsE env.errStatusOk env.now msg db)
    | none =>
      let ins := insertLoop env.insertOk (productToRow env.now) 0 products
      let db2 := { db with products := ins.1 }
      match env.statusErr with
      | some msg =>
          (SyncResult.err msg, applyErrStatus productsE env.errStatusOk env.now msg db2)
      | none =>
          (SyncResult.ok ins.2,
           { db2 with syncStatus := upsertSuccess productsE env.now ins.2 db2.syncStatus })

/-- The `syncPicklists` procedure; same shape as `syncProducts` over the
`picklists` table. -/
def syncPicklists (env : PicklistsEnv) (db : DBState) : SyncResult × DBState :=
  match env.fetch with
  | Except.error msg =>
      (SyncResult.err msg, applyErrStatus picklistsE env.errStatusOk env.now msg db)
  | Except.ok picklists =>
    match env.deleteErr with
    | some msg =>
        (SyncResult.err msg, applyErrStatus picklistsE env.errStatusOk env.now msg db)
    | none =>
      let ins := insertLoop env.insertOk (picklistToRow env.now) 0 picklists
      let db2 := { db with picklists := ins.1 }
      match env.statusErr with
      | some msg =>
          (SyncResult.err msg, applyErrStatus picklistsE env.errStatusOk env.now msg db2)
      | none =>
          (SyncResult.ok ins.2,
           { db2 with syncStatus := upsertSuccess picklistsE env.now ins.2 db2.syncStatus })

/-- The `syncWarehouses` procedure; same shape as `syncProducts` over the
`warehouses` table. -/
def syncWarehouses (env : WarehousesEnv) (db : DBState) : SyncResult × DBState :=
  match env.fetch with
  | Except.error msg =>
      (SyncResult.err msg, applyErrStatus warehousesE env.errStatusOk env.now msg db)
  | Except.ok warehouses =>
    match env.deleteErr with
    | some msg =>
        (SyncResult.err msg, applyErrStatus warehousesE env.errStatusOk env.now msg db)
    | none =>
      let ins := insertLoop env.insertOk (warehouseToRow env.now) 0 warehouses
      let db2 := { db with warehouses := ins.1 }
      match env.statusErr with
      | some msg =>
          (SyncResult.err msg, applyErrStatus warehousesE env.errStatusOk env.now msg db2)
      | none =>
          (SyncResult.ok ins.2,
           { db2 with syncStatus := upsertSuccess warehousesE env.now ins.2 db2.syncStatus })

/-- The combined result object built by `syncAll`: timestamp, the three
per-entity results, and `success = products.success || picklists.success ||
warehouses.success`. -/
structure CombinedResult where
  timestamp : String
  products : SyncResult
  picklists : SyncResult
  warehouses : SyncResult
  success : Bool
  deriving Repr, DecidableEq

/-- Return value of `syncAll`: either the immediate rejection object
`{success: false, error: 'Sync already in progress'}` or the combined result. -/
inductive SyncAllOutcome where
  | rejected (error : String)
  | completed (r : CombinedResult)
  deriving Repr, DecidableEq

/-- Process-wide mutable state: the database pool's data, the boolean
`syncInProgress` flag, and the in-memory `lastSyncResults` object (empty `{}`
at startup, modelled as `none`). -/
structure AppState where
  db : DBState
  syncInProgress : Bool
  lastSyncResults : Option CombinedResult
  deriving Repr, DecidableEq

/-- Environment of one `syncAll` run: the three entity environments and the
value of `new Date().toISOString()`. -/
structure SyncAllEnv where
  pEnv : ProductsEnv
  plEnv : PicklistsEnv
  wEnv : WarehousesEnv
  timestamp : String

/-- The `syncAll` orchestrator: rejected immediately when `syncInProgress` is
already set; otherwise sets the flag, runs the three entity syncs in order
(products, picklists, warehouses), stores the combined result with the
OR-of-successes flag into `lastSyncResults`, and clears the flag.  (The
procedure's own catch branch is unreachable: each entity sync catches all of
its errors and returns a result object.) -/
def syncAll (env : SyncAllEnv) (st : AppState) : SyncAllOutcome × AppState :=
  if st.syncInProgress then
    (SyncAllOutcome.rejected syncBusyMsg, st)
  else
    let pr := syncProducts env.pEnv st.db
    let plr := syncPicklists env.plEnv pr.2
    let wr := syncWarehouses env.wEnv plr.2
    let combined : CombinedResult :=
      { timestamp := env.timestamp, products := pr.1, picklists := plr.1,
        warehouses := wr.1,
        success := resSuccess pr.1 || resSuccess plr.1 || resSuccess wr.1 }
    (SyncAllOutcome.completed combined,
     { db := wr.2, syncInProgress := false, lastSyncResults := some combined })

/-- JSON response of the sync-trigger routes: HTTP status, `success` flag,
`message`, and the `background` marker. -/
structure ApiResponse where
  status : Nat
  success : Bool
  message : String
  background : Bool
  deriving Repr, DecidableEq

/-- Message of the 400 response for an unknown entity:
`Unknown entity type: <entity>`. -/
def unknownEntityMsg (e : String) : String := "Unknown entity type: " ++ e

/-- Message of the 200 response of `POST /api/sync/:entity`:
`Sync started for <entity>`. -/
def syncStartedMsg (e : String) : String := "Sync started for " ++ e

/-- Handler of `POST /api/sync/:entity`: dispatches on the entity name and
starts the matching single-entity sync in the background, answering 200
immediately; an unknown entity name answers 400 and starts nothing.  The
handler never reads or writes `syncInProgress`; the state returned reflects
the background sync having run. -/
def postSyncEntity (entity : String) (env : SyncAllEnv) (st : AppState) :
    ApiResponse × AppState :=
  if entity = productsE then
    ({ status := 200, success := true, message := syncStartedMsg entity,
       background := true },
     { st with db := (syncProducts env.pEnv st.db).2 })
  else if entity = picklistsE then
    ({ status := 200, success := true, message := syncStartedMsg entity,
       background := true },
     { st with db := (syncPicklists env.plEnv st.db).2 })
  else if entity = warehousesE then
    ({ status := 200, success := true, message := syncStartedMsg entity,
       background := true },
     { st with db := (syncWarehouses env.wEnv st.db).2 })
  else
    ({ status := 400, success := false, message := unknownEntityMsg entity,
       background := false }, st)

/-- Per-entity object served by `GET /api/stats`: the `sync_status` row when it
exists, otherwise the default placeholder `{lastSyncDate: null, totalCount: 0,
status: 'Not synced yet'}`. -/
structure EntityStats where
  lastSyncDate : Option Nat
  totalCount : Nat
  status : String
  deriving Repr, DecidableEq

/-- Stats reported for one entity by `GET /api/stats`. -/
def statsFor (db : DBState) (e : String) : EntityStats :=
  match getStatus db e with
  | some r => { lastSyncDate := some r.last_sync, totalCount := r.record_count,
                status := r.status }
  | none => { lastSyncDate := none, totalCount := 0, status := notSyncedStr }

/-- One entry of the `PicqerClient` request queue, together with the external
outcome of its `axios` call: how long the attempt takes and whether it rejects. -/
structure QueuedRequest where
  method : String
  endpoint : String
  duration : Nat
  failed : Bool
  deriving Repr, DecidableEq

/-- Delay (ms) between requests: `(60 * 1000) / this.requestsPerMinute`. -/
def rateDelay (requestsPerMinute : Nat) : Nat := 60 * 1000 / requestsPerMinute

/-- Drain loop of the request queue, iterating `processNextRequest` from time
`t` with no further arrivals: the head of the queue is dispatched at `t`; its
attempt resolves or rejects after `duration`; the `setTimeout` then waits
`delay` before the next dispatch — also when the attempt failed.  The result
pairs each queue entry with its dispatch time, in processing order. -/
def processQueue (delay : Nat) : Nat → List QueuedRequest → List (Nat × QueuedRequest)
  | _, [] => []
  | t, r :: rest => (t, r) :: processQueue delay (t + r.duration + delay) rest

/-- A `sync_status` row matching the entity predicate still matches it after
the error-upsert update, and vice versa: the update never changes `entity`. -/
theorem upsertError_pred_comm (e : String) (now : Nat) (msg : String) :
    (fun x : SyncStatusRow => decide (x.entity = e)) ∘
      (fun r : SyncStatusRow => if r.entity = e then
        { r with last_sync := now, status := errStatusStr msg } else r) =
    (fun x : SyncStatusRow => decide (x.entity = e)) := by
  funext x
  by_cases hx : x.entity = e <;> simp [hx]

/-- Error upsert on a table with no row for `e`: the INSERT branch appends a
row with `record_count = 0`. -/
theorem upsertError_find?_none (e : String) (now : Nat) (msg : String)
    (l : List SyncStatusRow)
    (h : l.find? (fun x => x.entity = e) = none) :
    (upsertError e now msg l).find? (fun x => x.entity = e) =
      some { entity := e, last_sync := now, record_count := 0,
             status := errStatusStr msg } := by
  have hany : l.any (fun x => decide (x.entity = e)) = false := by
    rw [List.any_eq_false]
    intro x hx
    simpa using List.find?_eq_none.mp h x hx
  unfold upsertError
  rw [hany]
  simp only [Bool.false_eq_true, if_false, List.find?_append, h, Option.none_or]
  simp [List.find?]

/-- Error upsert on a table already holding row `r` for `e`: the UPDATE branch
rewrites `last_sync` and `status` of that row and keeps `record_count`. -/
theorem upsertError_find?_some (e : String) (now : Nat) (msg : String)
    (l : List SyncStatusRow) (r : SyncStatusRow)
    (h : l.find? (fun x => x.entity = e) = some r) :
    (upsertError e now msg l).find? (fun x => x.entity = e) =
      some { r with last_sync := now, status := errStatusStr msg } := by
  have hre : r.entity = e := by simpa using List.find?_some h
  have hany : l.any (fun x => decide (x.entity = e)) = true := by
    rw [List.any_eq_true]
    exact ⟨r, List.mem_of_find?_eq_some h, by simpa using hre⟩
  unfold upsertError
  rw [hany]
  simp only [if_true]
  rw [List.find?_map, upsertError_pred_comm e now msg, h]
  simp [hre]

/-- Same commutation fact for the success-upsert update. -/
theorem upsertSuccess_pred_comm (e : String) (now : Nat) (count : Nat) :
    (fun x : SyncStatusRow => decide (x.entity = e)) ∘
      (fun r : SyncStatusRow => if r.entity = e then
        { r with last_sync := now, record_count := count, status := successStr } else r) =
    (fun x : SyncStatusRow => decide (x.entity = e)) := by
  funext x
  by_cases hx : x.entity = e <;> simp [hx]

/-- Success upsert on a table with no row for `e`: INSERT branch. -/
theorem upsertSuccess_find?_none (e : String) (now : Nat) (count : Nat)
    (l : List SyncStatusRow)
    (h : l.find? (fun x => x.entity = e) = none) :
    (upsertSuccess e now count l).find? (fun x => x.entity = e) =
      some { entity := e, last_sync := now, record_count := count,
             status := successStr } := by
  have hany : l.any (fun x => decide (x.entity = e)) = false := by
    rw [List.any_eq_false]
    intro x hx
    simpa using List.find?_eq_none.mp h x hx
  unfold upsertSuccess
  rw [hany]
  simp only [Bool.false_eq_true, if_false, List.find?_append, h, Option.none_or]
  simp [List.find?]

/-- Success upsert on a table already holding row `r` for `e`: UPDATE branch. -/
theorem upsertSuccess_find?_some (e : String) (now : Nat) (count : Nat)
    (l : List SyncStatusRow) (r : SyncStatusRow)
    (h : l.find? (fun x => x.entity = e) = some r) :
    (upsertSuccess e now count l).find? (fun x => x.entity = e) =
      some { r with last_sync := now, record_count := count,
                    status := successStr } := by
  have hre : r.entity = e := by simpa using List.find?_some h
  have hany : l.any (fun x => decide (x.entity = e)) = true := by
    rw [List.any_eq_true]
    exact ⟨r, List.mem_of_find?_eq_some h, by simpa using hre⟩
  unfold upsertSuccess
  rw [hany]
  simp only [if_true]
  rw [List.find?_map, upsertSuccess_pred_comm e now count, h]
  simp [hre]

/-- The catch branch with a succeeding error upsert, seen through `getStatus`:
UPDATE case, `record_count` kept. -/
theorem getStatus_applyErrStatus_some (e : String) (now : Nat) (msg : String)
    (db : DBState) (row : SyncStatusRow)
    (h : getStatus db e = some row) :
    getStatus (applyErrStatus e true now msg db) e =
      some { row with last_sync := now, status := errStatusStr msg } := by
  simp only [applyErrStatus, if_true, getStatus]
  exact upsertError_find?_some e now msg db.syncStatus row h

/-- The catch branch with a succeeding error upsert, seen through `getStatus`:
INSERT case, `record_count` set to 0. -/
theorem getStatus_applyErrStatus_none (e : String) (now : Nat) (msg : String)
    (db : DBState)
    (h : getStatus db e = none) :
    getStatus (applyErrStatus e true now msg db) e =
      some { entity := e, last_sync := now, record_count := 0,
             status := errStatusStr msg } := by
  simp only [applyErrStatus, if_true, getStatus]
  exact upsertError_find?_none e now msg db.syncStatus h

/-- The number of rows the insert loop stores equals the `insertedCount` it
returns. -/
theorem insertLoop_length (ok : Nat → Bool) (f : α → β) (xs : List α) :
    ∀ i, (insertLoop ok f i xs).1.length = (insertLoop ok f i xs).2 := by
  induction xs with
  | nil => intro i; rfl
  | cons x xs ih =>
    intro i
    cases hi : ok i <;> simp [insertLoop, hi, ih (i + 1)]

/-- Number of loop iterations whose per-row insert fails, among the `n` queue
indices starting at `i`. -/
def failedCount (ok : Nat → Bool) : Nat → Nat → Nat
  | _, 0 => 0
  | i, Nat.succ n => (if ok i then 0 else 1) + failedCount ok (i + 1) n

/-- Rows inserted plus rows skipped equals the number of fetched records. -/
theorem insertLoop_count_add_failed (ok : Nat → Bool) (f : α → β) (xs : List α) :
    ∀ i, (insertLoop ok f i xs).2 + failedCount ok i xs.length = xs.length := by
  induction xs with
  | nil => intro i; rfl
  | cons x xs ih =>
    intro i
    have h := ih (i + 1)
    cases hi : ok i <;> simp [insertLoop, hi, List.length_cons, failedCount] <;> omega

/-- Empty database, as right after `createTablesIfNotExist` on a fresh server. -/
def db0 : DBState :=
  { products := [], picklists := [], warehouses := [], syncStatus := [] }

/-- Environment of a products sync in which everything succeeds and the remote
collection is empty. -/
def pEnvOk : ProductsEnv :=
  { fetch := Except.ok [], deleteErr := none, insertOk := fun _ => true,
    statusErr := none, errStatusOk := true, now := 0 }

/-- Fully succeeding picklists environment. -/
def plEnvOk : PicklistsEnv :=
  { fetch := Except.ok [], deleteErr := none, insertOk := fun _ => true,
    statusErr := none, errStatusOk := true, now := 0 }

/-- Fully succeeding warehouses environment. -/
def wEnvOk : WarehousesEnv :=
  { fetch := Except.ok [], deleteErr := none, insertOk := fun _ => true,
    statusErr := none, errStatusOk := true, now := 0 }

/-- Orchestrator environment in which all three entity syncs succeed. -/
def envOk : SyncAllEnv :=
  { pEnv := pEnvOk, plEnv := plEnvOk, wEnv := wEnvOk, timestamp := emptyStr }

/-- Idle startup state. -/
def st0 : AppState := { db := db0, syncInProgress := false, lastSyncResults := none }

/-- State with a full sync already in flight. -/
def stBusy : AppState := { db := db0, syncInProgress := true, lastSyncResults := none }

/-- Sample error message. -/
def boomStr : String := "boom"

/-- Sample unknown entity name. -/
def foobarStr : String := "foobar"

/-- Sync-status row written by a succeeding sync of an empty collection at
time 0. -/
def stRowOk (e : String) : SyncStatusRow :=
  { entity := e, last_sync := 0, record_count := 0, status := successStr }

/-- Combined result of running `syncAll envOk` from `st0`. -/
def c1Res : CombinedResult :=
  { timestamp := emptyStr, products := SyncResult.ok 0,
    picklists := SyncResult.ok 0, warehouses := SyncResult.ok 0, success := true }

/-- Final state of running `syncAll envOk` from `st0`. -/
def c1St : AppState :=
  { db := { products := [], picklists := [], warehouses := [],
            syncStatus := [stRowOk productsE, stRowOk picklistsE, stRowOk warehousesE] },
    syncInProgress := false, lastSyncResults := some c1Res }

/-- C1: every non-rejected run of `syncAll` produces a combined result whose
overall `success` flag is the OR of the three per-entity `success` flags: it is
true exactly when at least one of products, picklists, warehouses succeeded,
and false exactly when all three failed. -/
theorem syncAll_success_iff_any (env : SyncAllEnv) (st : AppState)
    (h : st.syncInProgress = false) (r : CombinedResult) (st2 : AppState)
    (hr : syncAll env st = (SyncAllOutcome.completed r, st2)) :
    r.success = (resSuccess r.products || resSuccess r.picklists || resSuccess r.warehouses) ∧
    (r.success = true ↔
      (resSuccess r.products = true ∨ resSuccess r.picklists = true ∨
       resSuccess r.warehouses = true)) ∧
    (r.success = false ↔
      (resSuccess r.products = false ∧ resSuccess r.picklists = false ∧
       resSuccess r.warehouses = false)) := by
  unfold syncAll at hr
  rw [h] at hr
  simp only [Bool.false_eq_true, if_false, Prod.mk.injEq,
    SyncAllOutcome.completed.injEq] at hr
  obtain ⟨h1, h2⟩ := hr
  subst h1
  refine ⟨rfl, ?_, ?_⟩ <;>
    simp [Bool.or_eq_true, Bool.or_eq_false_iff, or_assoc, and_assoc]

/-- Witness for C1: it applies at the all-succeeding run from the idle startup
state, whose combined result has `success = true`. -/
theorem syncAll_success_iff_any_witness :
    c1Res.success = (resSuccess c1Res.products || resSuccess c1Res.picklists ||
      resSuccess c1Res.warehouses) ∧
    (c1Res.success = true ↔
      (resSuccess c1Res.products = true ∨ resSuccess c1Res.picklists = true ∨
       resSuccess c1Res.warehouses = true)) ∧
    (c1Res.success = false ↔
      (resSuccess c1Res.products = false ∧ resSuccess c1Res.picklists = false ∧
       resSuccess c1Res.warehouses = false)) :=
  syncAll_success_iff_any envOk st0 rfl c1Res c1St (by decide)

/-- C3: invoking `syncAll` while `syncInProgress` is set returns
`{success: false, error: 'Sync already in progress'}` immediately and leaves
the whole state — all persisted tables included — unchanged. -/
theorem syncAll_rejects_when_in_progress (env : SyncAllEnv) (st : AppState)
    (h : st.syncInProgress = true) :
    syncAll env st = (SyncAllOutcome.rejected syncBusyMsg, st) := by
  unfold syncAll
  rw [h]
  simp

/-- Witness for C3 at the busy startup state. -/
theorem syncAll_rejects_when_in_progress_witness :
    syncAll envOk stBusy = (SyncAllOutcome.rejected syncBusyMsg, stBusy) :=
  syncAll_rejects_when_in_progress envOk stBusy rfl

/-- C8: `POST /api/sync/:entity` with an entity name other than products,
picklists or warehouses answers HTTP 400 with
`{success: false, message: 'Unknown entity type: <entity>'}` and leaves the
state untouched — no sync is started. -/
theorem postSyncEntity_unknown_400 (entity : String) (env : SyncAllEnv)
    (st : AppState)
    (h1 : entity ≠ productsE) (h2 : entity ≠ picklistsE)
    (h3 : entity ≠ warehousesE) :
    postSyncEntity entity env st =
      ({ status := 400, success := false, message := unknownEntityMsg entity,
         background := false }, st) := by
  simp [postSyncEntity, h1, h2, h3]

/-- Witness for C8 at the unknown entity name `foobar`. -/
theorem postSyncEntity_unknown_400_witness :
    postSyncEntity foobarStr envOk st0 =
      ({ status := 400, success := false, message := unknownEntityMsg foobarStr,
         background := false }, st0) :=
  postSyncEntity_unknown_400 foobarStr envOk st0 (by decide) (by decide) (by decide)

/-- C9: the single-entity sync route neither checks nor sets `syncInProgress`:
for every state of the flag the sync runs unguarded (the state advances by the
entity sync, the route answers success), and the flag is left exactly as it
was. -/
theorem postSyncEntity_ignores_sync_flag (env : SyncAllEnv) (st : AppState) :
    ((postSyncEntity productsE env st).2.syncInProgress = st.syncInProgress ∧
     (postSyncEntity productsE env st).2.db = (syncProducts env.pEnv st.db).2 ∧
     (postSyncEntity productsE env st).1.success = true) ∧
    ((postSyncEntity picklistsE env st).2.syncInProgress = st.syncInProgress ∧
     (postSyncEntity picklistsE env st).2.db = (syncPicklists env.plEnv st.db).2 ∧
     (postSyncEntity picklistsE env st).1.success = true) ∧
    ((postSyncEntity warehousesE env st).2.syncInProgress = st.syncInProgress ∧
     (postSyncEntity warehousesE env st).2.db = (syncWarehouses env.wEnv st.db).2 ∧
     (postSyncEntity warehousesE env st).1.success = true) := by
  refine ⟨⟨?_, ?_, ?_⟩, ⟨?_, ?_, ?_⟩, ⟨?_, ?_, ?_⟩⟩ <;>
    simp [postSyncEntity, productsE, picklistsE, warehousesE]

/-- C7: draining the request queue processes the entries one at a time in
first-in-first-out order (the dispatched sequence is exactly the queue, failed
attempts included, so a failure stops nothing); each next dispatch happens
exactly `60000 / requestsPerMinute` ms after the previous attempt finished, so
consecutive dispatch times are at least that far apart; and for
`requestsPerMinute = 30` the window is 2000 ms. -/
theorem processQueue_fifo_spaced (rpm t : Nat) (q : List QueuedRequest) :
    List.map Prod.snd (processQueue (rateDelay rpm) t q) = q ∧
    List.Chain' (fun a b => b.1 = a.1 + a.2.duration + rateDelay rpm ∧
      a.1 + rateDelay rpm ≤ b.1) (processQueue (rateDelay rpm) t q) ∧
    rateDelay 30 = 2000 := by
  refine ⟨?_, ?_, by norm_num [rateDelay]⟩
  · induction q generalizing t with
    | nil => rfl
    | cons r rest ih => simp [processQueue, ih]
  · induction q generalizing t with
    | nil => simp [processQueue]
    | cons r rest ih =>
      cases rest with
      | nil => simp [processQueue]
      | cons r2 rest2 =>
        rw [processQueue, processQueue]
        refine List.Chain'.cons ⟨rfl, by omega⟩ ?_
        exact ih (t + r.duration + rateDelay rpm)

/-- Products environment whose fetch fails with `boom` and whose error upsert
succeeds. -/
def pEnvFetchFail : ProductsEnv :=
  { fetch := Except.error boomStr, deleteErr := none, insertOk := fun _ => true,
    statusErr := none, errStatusOk := true, now := 5 }

/-- Products environment whose fetch fails with `boom` and whose error upsert
itself also fails. -/
def pEnvFetchFailNoUp : ProductsEnv :=
  { fetch := Except.error boomStr, deleteErr := none, insertOk := fun _ => true,
    statusErr := none, errStatusOk := false, now := 7 }

/-- C2: an entity sync failing at the fetch or at the delete step catches the
error, upserts that entity's `sync_status` row with status
`'error: ' + message truncated to 255 characters` at the current time, and
returns `{success: false, error: message}`.  Stated for each of the three
entity procedures, for runs whose error upsert itself succeeds. -/
theorem sync_failure_records_error_status :
    (∀ (env : ProductsEnv) (db : DBState) (msg : String),
      env.errStatusOk = true →
      (env.fetch = Except.error msg ∨
        ((∃ ps, env.fetch = Except.ok ps) ∧ env.deleteErr = some msg)) →
      (syncProducts env db).1 = SyncResult.err msg ∧
      ∃ row, getStatus (syncProducts env db).2 productsE = some row ∧
        row.status = errStatusStr msg ∧ row.last_sync = env.now) ∧
    (∀ (env : PicklistsEnv) (db : DBState) (msg : String),
      env.errStatusOk = true →
      (env.fetch = Except.error msg ∨
        ((∃ ps, env.fetch = Except.ok ps) ∧ env.deleteErr = some msg)) →
      (syncPicklists env db).1 = SyncResult.err msg ∧
      ∃ row, getStatus (syncPicklists env db).2 picklistsE = some row ∧
        row.status = errStatusStr msg ∧ row.last_sync = env.now) ∧
    (∀ (env : WarehousesEnv) (db : DBState) (msg : String),
      env.errStatusOk = true →
      (env.fetch = Except.error msg ∨
        ((∃ ps, env.fetch = Except.ok ps) ∧ env.deleteErr = some msg)) →
      (syncWarehouses env db).1 = SyncResult.err msg ∧
      ∃ row, getStatus (syncWarehouses env db).2 warehousesE = some row ∧
        row.status = errStatusStr msg ∧ row.last_sync = env.now) := by
  refine ⟨?_, ?_, ?_⟩
  · intro env db msg herr hcase
    have hred : syncProducts env db =
        (SyncResult.err msg, applyErrStatus productsE env.errStatusOk env.now msg db) := by
      rcases hcase with hf | ⟨⟨ps, hps⟩, hdel⟩
      · simp [syncProducts, hf]
      · simp [syncProducts, hps, hdel]
    rw [hred, herr]
    refine ⟨rfl, ?_⟩
    cases hfind : getStatus db productsE with
    | none =>
        exact ⟨_, getStatus_applyErrStatus_none productsE env.now msg db hfind, rfl, rfl⟩
    | some row =>
        exact ⟨_, getStatus_applyErrStatus_some productsE env.now msg db row hfind, rfl, rfl⟩
  · intro env db msg herr hcase
    have hred : syncPicklists env db =
        (SyncResult.err msg, applyErrStatus picklistsE env.errStatusOk env.now msg db) := by
      rcases hcase with hf | ⟨⟨ps, hps⟩, hdel⟩
      · simp [syncPicklists, hf]
      · simp [syncPicklists, hps, hdel]
    rw [hred, herr]
    refine ⟨rfl, ?_⟩
    cases hfind : getStatus db picklistsE with
    | none =>
        exact ⟨_, getStatus_applyErrStatus_none picklistsE env.now msg db hfind, rfl, rfl⟩
    | some row =>
        exact ⟨_, getStatus_applyErrStatus_some picklistsE env.now msg db row hfind, rfl, rfl⟩
  · intro env db msg herr hcase
    have hred : syncWarehouses env db =
        (SyncResult.err msg, applyErrStatus warehousesE env.errStatusOk env.now msg db) := by
      rcases hcase with hf | ⟨⟨ps, hps⟩, hdel⟩
      · simp [syncWarehouses, hf]
      · simp [syncWarehouses, hps, hdel]
    rw [hred, herr]
    refine ⟨rfl, ?_⟩
    cases hfind : getStatus db warehousesE with
    | none =>
        exact ⟨_, getStatus_applyErrStatus_none warehousesE env.now msg db hfind, rfl, rfl⟩
    | some row =>
        exact ⟨_, getStatus_applyErrStatus_some warehousesE env.now msg db row hfind, rfl, rfl⟩

/-- Witness for C2: a products sync whose fetch rejects with message `boom`. -/
theorem sync_failure_records_error_status_witness :
    (syncProducts pEnvFetchFail db0).1 = SyncResult.err boomStr ∧
    ∃ row, getStatus (syncProducts pEnvFetchFail db0).2 productsE = some row ∧
      row.status = errStatusStr boomStr ∧ row.last_sync = pEnvFetchFail.now :=
  sync_failure_records_error_status.1 pEnvFetchFail db0 boomStr rfl (Or.inl rfl)

/-- A products row used to populate a table before a failing sync. -/
def rowP : ProductRow :=
  { id := 1, idproduct := 1, name := emptyStr, sku := emptyStr,
    barcode := emptyStr, price := 0, stock := 0, sync_date := 0 }

/-- Database holding one previously synced product. -/
def dbWithProducts : DBState :=
  { products := [rowP], picklists := [], warehouses := [], syncStatus := [] }

/-- C4: when the fetch for an entity fails, that entity's table keeps exactly
the rows it had before (the `DELETE` runs only after a successful fetch), and
the entity's `sync_status` status string afterwards begins with `error: `
(when the error upsert goes through).  Stated for all three entities. -/
theorem sync_fetch_failure_preserves_table :
    (∀ (env : ProductsEnv) (db : DBState) (msg : String),
      env.fetch = Except.error msg →
      (syncProducts env db).2.products = db.products ∧
      (env.errStatusOk = true →
        ∃ row rest, getStatus (syncProducts env db).2 productsE = some row ∧
          row.status = errPre ++ rest)) ∧
    (∀ (env : PicklistsEnv) (db : DBState) (msg : String),
      env.fetch = Except.error msg →
      (syncPicklists env db).2.picklists = db.picklists ∧
      (env.errStatusOk = true →
        ∃ row rest, getStatus (syncPicklists env db).2 picklistsE = some row ∧
          row.status = errPre ++ rest)) ∧
    (∀ (env : WarehousesEnv) (db : DBState) (msg : String),
      env.fetch = Except.error msg →
      (syncWarehouses env db).2.warehouses = db.warehouses ∧
      (env.errStatusOk = true →
        ∃ row rest, getStatus (syncWarehouses env db).2 warehousesE = some row ∧
          row.status = errPre ++ rest)) := by
  refine ⟨?_, ?_, ?_⟩
  · intro env db msg hf
    constructor
    · cases he : env.errStatusOk <;> simp [syncProducts, hf, applyErrStatus, he]
    · intro he
      have hred : (syncProducts env db).2 = applyErrStatus productsE true env.now msg db := by
        simp [syncProducts, hf, he]
      rw [hred]
      cases hfind : getStatus db productsE with
      | none =>
          exact ⟨_, msg.take 255,
            getStatus_applyErrStatus_none productsE env.now msg db hfind, rfl⟩
      | some row =>
          exact ⟨_, msg.take 255,
            getStatus_applyErrStatus_some productsE env.now msg db row hfind, rfl⟩
  · intro env db msg hf
    constructor
    · cases he : env.errStatusOk <;> simp [syncPicklists, hf, applyErrStatus, he]
    · intro he
      have hred : (syncPicklists env db).2 = applyErrStatus picklistsE true env.now msg db := by
        simp [syncPicklists, hf, he]
      rw [hred]
      cases hfind : getStatus db picklistsE with
      | none =>
          exact ⟨_, msg.take 255,
            getStatus_applyErrStatus_none picklistsE env.now msg db hfind, rfl⟩
      | some row =>
          exact ⟨_, msg.take 255,
            getStatus_applyErrStatus_some picklistsE env.now msg db row hfind, rfl⟩
  · intro env db msg hf
    constructor
    · cases he : env.errStatusOk <;> simp [syncWarehouses, hf, applyErrStatus, he]
    · intro he
      have hred : (syncWarehouses env db).2 = applyErrStatus warehousesE true env.now msg db := by
        simp [syncWarehouses, hf, he]
      rw [hred]
      cases hfind : getStatus db warehousesE with
      | none =>
          exact ⟨_, msg.take 255,
            getStatus_applyErrStatus_none warehousesE env.now msg db hfind, rfl⟩
      | some row =>
          exact ⟨_, msg.take 255,
            getStatus_applyErrStatus_some warehousesE env.now msg db row hfind, rfl⟩

/-- Witness for C4: the failing fetch leaves the one stored product in place
and records an error status. -/
theorem sync_fetch_failure_preserves_table_witness :
    (syncProducts pEnvFetchFail dbWithProducts).2.products = dbWithProducts.products ∧
    (∃ row rest,
      getStatus (syncProducts pEnvFetchFail dbWithProducts).2 productsE = some row ∧
      row.status = errPre ++ rest) := by
  have h := sync_fetch_failure_preserves_table.1 pEnvFetchFail dbWithProducts boomStr rfl
  exact ⟨h.1, h.2 rfl⟩

/-- C6: when an entity sync fails at fetch or delete and the follow-up error
upsert of `sync_status` itself fails, the secondary failure is swallowed: the
database is left untouched and the procedure still returns
`{success: false, error: <original message>}` — the secondary error never
replaces the original one.  Stated for all three entities. -/
theorem sync_error_upsert_failure_swallowed :
    (∀ (env : ProductsEnv) (db : DBState) (msg : String),
      env.errStatusOk = false →
      (env.fetch = Except.error msg ∨
        ((∃ ps, env.fetch = Except.ok ps) ∧ env.deleteErr = some msg)) →
      (syncProducts env db).1 = SyncResult.err msg ∧
      (syncProducts env db).2 = db) ∧
    (∀ (env : PicklistsEnv) (db : DBState) (msg : String),
      env.errStatusOk = false →
      (env.fetch = Except.error msg ∨
        ((∃ ps, env.fetch = Except.ok ps) ∧ env.deleteErr = some msg)) →
      (syncPicklists env db).1 = SyncResult.err msg ∧
      (syncPicklists env db).2 = db) ∧
    (∀ (env : WarehousesEnv) (db : DBState) (msg : String),
      env.errStatusOk = false →
      (env.fetch = Except.error msg ∨
        ((∃ ps, env.fetch = Except.ok ps) ∧ env.deleteErr = some msg)) →
      (syncWarehouses env db).1 = SyncResult.err msg ∧
      (syncWarehouses env db).2 = db) := by
  refine ⟨?_, ?_, ?_⟩
  · intro env db msg herr hcase
    rcases hcase with hf | ⟨⟨ps, hps⟩, hdel⟩
    · simp [syncProducts, hf, applyErrStatus, herr]
    · simp [syncProducts, hps, hdel, applyErrStatus, herr]
  · intro env db msg herr hcase
    rcases hcase with hf | ⟨⟨ps, hps⟩, hdel⟩
    · simp [syncPicklists, hf, applyErrStatus, herr]
    · simp [syncPicklists, hps, hdel, applyErrStatus, herr]
  · intro env db msg herr hcase
    rcases hcase with hf | ⟨⟨ps, hps⟩, hdel⟩
    · simp [syncWarehouses, hf, applyErrStatus, herr]
    · simp [syncWarehouses, hps, hdel, applyErrStatus, herr]

/-- Witness for C6: fetch fails with `boom` and the error upsert also fails;
the run still reports `boom` and writes nothing. -/
theorem sync_error_upsert_failure_swallowed_witness :
    (syncProducts pEnvFetchFailNoUp db0).1 = SyncResult.err boomStr ∧
    (syncProducts pEnvFetchFailNoUp db0).2 = db0 :=
  sync_error_upsert_failure_swallowed.1 pEnvFetchFailNoUp db0 boomStr rfl (Or.inl rfl)

/-- C5: a fully successful entity sync (fetch, delete and status upsert all go
through) returns `{success: true, count: insertedCount}`; the entity's table
then holds exactly `insertedCount` rows; `insertedCount` plus the number of
rows whose individual insert failed equals the number of fetched records (a
bad row is skipped, never aborting the sync); and the `sync_status` row is
upserted with `record_count = insertedCount` and status `success`. -/
theorem sync_success_counts :
    (∀ (env : ProductsEnv) (db : DBState) (ps : List PicqerProduct),
      env.fetch = Except.ok ps → env.deleteErr = none → env.statusErr = none →
      ∃ n, (syncProducts env db).1 = SyncResult.ok n ∧
        (syncProducts env db).2.products.length = n ∧
        n + failedCount env.insertOk 0 ps.length = ps.length ∧
        n = ps.length - failedCount env.insertOk 0 ps.length ∧
        ∃ row, getStatus (syncProducts env db).2 productsE = some row ∧
          row.record_count = n ∧ row.status = successStr) ∧
    (∀ (env : PicklistsEnv) (db : DBState) (ps : List PicqerPicklist),
      env.fetch = Except.ok ps → env.deleteErr = none → env.statusErr = none →
      ∃ n, (syncPicklists env db).1 = SyncResult.ok n ∧
        (syncPicklists env db).2.picklists.length = n ∧
        n + failedCount env.insertOk 0 ps.length = ps.length ∧
        n = ps.length - failedCount env.insertOk 0 ps.length ∧
        ∃ row, getStatus (syncPicklists env db).2 picklistsE = some row ∧
          row.record_count = n ∧ row.status = successStr) ∧
    (∀ (env : WarehousesEnv) (db : DBState) (ps : List PicqerWarehouse),
      env.fetch = Except.ok ps → env.deleteErr = none → env.statusErr = none →
      ∃ n, (syncWarehouses env db).1 = SyncResult.ok n ∧
        (syncWarehouses env db).2.warehouses.length = n ∧
        n + failedCount env.insertOk 0 ps.length = ps.length ∧
        n = ps.length - failedCount env.insertOk 0 ps.length ∧
        ∃ row, getStatus (syncWarehouses env db).2 warehousesE = some row ∧
          row.record_count = n ∧ row.status = successStr) := by
  refine ⟨?_, ?_, ?_⟩
  · intro env db ps hf hd hs
    refine ⟨(insertLoop env.insertOk (productToRow env.now) 0 ps).2, ?_, ?_, ?_, ?_, ?_⟩
    · simp [syncProducts, hf, hd, hs]
    · simp [syncProducts, hf, hd, hs, insertLoop_length]
    · exact insertLoop_count_add_failed env.insertOk (productToRow env.now) ps 0
    · have := insertLoop_count_add_failed env.insertOk (productToRow env.now) ps 0
      omega
    · have hsync : (syncProducts env db).2.syncStatus =
          upsertSuccess productsE env.now
            (insertLoop env.insertOk (productToRow env.now) 0 ps).2 db.syncStatus := by
        simp [syncProducts, hf, hd, hs]
      cases hfind : db.syncStatus.find? (fun x => x.entity = productsE) with
      | none =>
          have hg : getStatus (syncProducts env db).2 productsE =
              some { entity := productsE, last_sync := env.now,
                     record_count := (insertLoop env.insertOk (productToRow env.now) 0 ps).2,
                     status := successStr } := by
            simp only [getStatus]
            rw [hsync]
            exact upsertSuccess_find?_none productsE env.now _ db.syncStatus hfind
          exact ⟨_, hg, rfl, rfl⟩
      | some row =>
          have hg : getStatus (syncProducts env db).2 productsE =
              some { row with
                     last_sync := env.now,
                     record_count := (insertLoop env.insertOk (productToRow env.now) 0 ps).2,
                     status := successStr } := by
            simp only [getStatus]
            rw [hsync]
            exact upsertSuccess_find?_some productsE env.now _ db.syncStatus row hfind
          exact ⟨_, hg, rfl, rfl⟩
  · intro env db ps hf hd hs
    refine ⟨(insertLoop env.insertOk (picklistToRow env.now) 0 ps).2, ?_, ?_, ?_, ?_, ?_⟩
    · simp [syncPicklists, hf, hd, hs]
    · simp [syncPicklists, hf, hd, hs, insertLoop_length]
    · exact insertLoop_count_add_failed env.insertOk (picklistToRow env.now) ps 0
    · have := insertLoop_count_add_failed env.insertOk (picklistToRow env.now) ps 0
      omega
    · have hsync : (syncPicklists env db).2.syncStatus =
          upsertSuccess picklistsE env.now
            (insertLoop env.insertOk (picklistToRow env.now) 0 ps).2 db.syncStatus := by
        simp [syncPicklists, hf, hd, hs]
      cases hfind : db.syncStatus.find? (fun x => x.entity = picklistsE) with
      | none =>
          have hg : getStatus (syncPicklists env db).2 picklistsE =
              some { entity := picklistsE, last_sync := env.now,
                     record_count := (insertLoop env.insertOk (picklistToRow env.now) 0 ps).2,
                     status := successStr } := by
            simp only [getStatus]
            rw [hsync]
            exact upsertSuccess_find?_none picklistsE env.now _ db.syncStatus hfind
          exact ⟨_, hg, rfl, rfl⟩
      | some row =>
          have hg : getStatus (syncPicklists env db).2 picklistsE =
              some { row with
                     last_sync := env.now,
                     record_count := (insertLoop env.insertOk (picklistToRow env.now) 0 ps).2,
                     status := successStr } := by
            simp only [getStatus]
            rw [hsync]
            exact upsertSuccess_find?_some picklistsE env.now _ db.syncStatus row hfind
          exact ⟨_, hg, rfl, rfl⟩
  · intro env db ps hf hd hs
    refine ⟨(insertLoop env.insertOk (warehouseToRow env.now) 0 ps).2, ?_, ?_, ?_, ?_, ?_⟩
    · simp [syncWarehouses, hf, hd, hs]
    · simp [syncWarehouses, hf, hd, hs, insertLoop_length]
    · exact insertLoop_count_add_failed env.insertOk (warehouseToRow env.now) ps 0
    · have := insertLoop_count_add_failed env.insertOk (warehouseToRow env.now) ps 0
      omega
    · have hsync : (syncWarehouses env db).2.syncStatus =
          upsertSuccess warehousesE env.now
            (insertLoop env.insertOk (warehouseToRow env.now) 0 ps).2 db.syncStatus := by
        simp [syncWarehouses, hf, hd, hs]
      cases hfind : db.syncStatus.find? (fun x => x.entity = warehousesE) with
      | none =>
          have hg : getStatus (syncWarehouses env db).2 warehousesE =
              some { entity := warehousesE, last_sync := env.now,
                     record_count := (insertLoop env.insertOk (warehouseToRow env.now) 0 ps).2,
                     status := successStr } := by
            simp only [getStatus]
            rw [hsync]
            exact upsertSuccess_find?_none warehousesE env.now _ db.syncStatus hfind
          exact ⟨_, hg, rfl, rfl⟩
      | some row =>
          have hg : getStatus (syncWarehouses env db).2 warehousesE =
              some { row with
                     last_sync := env.now,
                     record_count := (insertLoop env.insertOk (warehouseToRow env.now) 0 ps).2,
                     status := successStr } := by
            simp only [getStatus]
            rw [hsync]
            exact upsertSuccess_find?_some warehousesE env.now _ db.syncStatus row hfind
          exact ⟨_, hg, rfl, rfl⟩

/-- First sample fetched product. -/
def prodA : PicqerProduct :=
  { idproduct := 1, name := emptyStr, sku := none, barcode := none,
    price := none, stock := none }

/-- Second sample fetched product (its insert will be made to fail). -/
def prodB : PicqerProduct :=
  { idproduct := 2, name := emptyStr, sku := none, barcode := none,
    price := none, stock := none }

/-- Products environment fetching two records of which the second row's insert
fails. -/
def pEnvTwo : ProductsEnv :=
  { fetch := Except.ok [prodA, prodB], deleteErr := none,
    insertOk := fun i => i == 0, statusErr := none, errStatusOk := true, now := 3 }

/-- Witness for C5: two fetched products, one insert failure, count 1. -/
theorem sync_success_counts_witness :
    ∃ n, (syncProducts pEnvTwo db0).1 = SyncResult.ok n ∧
      (syncProducts pEnvTwo db0).2.products.length = n ∧
      n + failedCount pEnvTwo.insertOk 0 [prodA, prodB].length = [prodA, prodB].length ∧
      n = [prodA, prodB].length - failedCount pEnvTwo.insertOk 0 [prodA, prodB].length ∧
      ∃ row, getStatus (syncProducts pEnvTwo db0).2 productsE = some row ∧
        row.record_count = n ∧ row.status = successStr :=
  sync_success_counts.1 pEnvTwo db0 [prodA, prodB] rfl rfl rfl

/-- Status row left by an earlier successful products sync of 42 records. -/
def statusRowPrev : SyncStatusRow :=
  { entity := productsE, last_sync := 1, record_count := 42, status := successStr }

/-- Database whose `sync_status` already holds that earlier row. -/
def dbPrev : DBState :=
  { products := [], picklists := [], warehouses := [], syncStatus := [statusRowPrev] }

/-- C10: the catch-branch status upsert takes the UPDATE branch when the
entity's `sync_status` row exists, changing only `last_sync` and `status` and
keeping `record_count` — so after a failed sync that followed a successful
one, the stats reporter still shows the earlier record count next to the error
status; the INSERT branch, taken only when no row exists, writes
`record_count = 0`.  Stated for all three entities via a failing fetch. -/
theorem error_upsert_keeps_record_count :
    (∀ (env : ProductsEnv) (db : DBState) (msg : String) (row : SyncStatusRow),
      env.fetch = Except.error msg → env.errStatusOk = true →
      getStatus db productsE = some row →
      getStatus (syncProducts env db).2 productsE =
        some { row with last_sync := env.now, status := errStatusStr msg } ∧
      (statsFor (syncProducts env db).2 productsE).totalCount = row.record_count) ∧
    (∀ (env : ProductsEnv) (db : DBState) (msg : String),
      env.fetch = Except.error msg → env.errStatusOk = true →
      getStatus db productsE = none →
      getStatus (syncProducts env db).2 productsE =
        some { entity := productsE, last_sync := env.now, record_count := 0,
               status := errStatusStr msg }) ∧
    (∀ (env : PicklistsEnv) (db : DBState) (msg : String) (row : SyncStatusRow),
      env.fetch = Except.error msg → env.errStatusOk = true →
      getStatus db picklistsE = some row →
      getStatus (syncPicklists env db).2 picklistsE =
        some { row with last_sync := env.now, status := errStatusStr msg } ∧
      (statsFor (syncPicklists env db).2 picklistsE).totalCount = row.record_count) ∧
    (∀ (env : PicklistsEnv) (db : DBState) (msg : String),
      env.fetch = Except.error msg → env.errStatusOk = true →
      getStatus db picklistsE = none →
      getStatus (syncPicklists env db).2 picklistsE =
        some { entity := picklistsE, last_sync := env.now, record_count := 0,
               status := errStatusStr msg }) ∧
    (∀ (env : WarehousesEnv) (db : DBState) (msg : String) (row : SyncStatusRow),
      env.fetch = Except.error msg → env.errStatusOk = true →
      getStatus db warehousesE = some row →
      getStatus (syncWarehouses env db).2 warehousesE =
        some { row with last_sync := env.now, status := errStatusStr msg } ∧
      (statsFor (syncWarehouses env db).2 warehousesE).totalCount = row.record_count) ∧
    (∀ (env : WarehousesEnv) (db : DBState) (msg : String),
      env.fetch = Except.error msg → env.errStatusOk = true →
      getStatus db warehousesE = none →
      getStatus (syncWarehouses env db).2 warehousesE =
        some { entity := warehousesE, last_sync := env.now, record_count := 0,
               status := errStatusStr msg }) := by
  refine ⟨?_, ?_, ?_, ?_, ?_, ?_⟩
  · intro env db msg row hf he hfind
    have h2 : (syncProducts env db).2 = applyErrStatus productsE true env.now msg db := by
      simp [syncProducts, hf, he]
    rw [h2]
    have hg := getStatus_applyErrStatus_some productsE env.now msg db row hfind
    refine ⟨hg, ?_⟩
    simp [statsFor, hg]
  · intro env db msg hf he hfind
    have h2 : (syncProducts env db).2 = applyErrStatus productsE true env.now msg db := by
      simp [syncProducts, hf, he]
    rw [h2]
    exact getStatus_applyErrStatus_none productsE env.now msg db hfind
  · intro env db msg row hf he hfind
    have h2 : (syncPicklists env db).2 = applyErrStatus picklistsE true env.now msg db := by
      simp [syncPicklists, hf, he]
    rw [h2]
    have hg := getStatus_applyErrStatus_some picklistsE env.now msg db row hfind
    refine ⟨hg, ?_⟩
    simp [statsFor, hg]
  · intro env db msg hf he hfind
    have h2 : (syncPicklists env db).2 = applyErrStatus picklistsE true env.now msg db := by
      simp [syncPicklists, hf, he]
    rw [h2]
    exact getStatus_applyErrStatus_none picklistsE env.now msg db hfind
  · intro env db msg row hf he hfind
    have h2 : (syncWarehouses env db).2 = applyErrStatus warehousesE true env.now msg db := by
      simp [syncWarehouses, hf, he]
    rw [h2]
    have hg := getStatus_applyErrStatus_some warehousesE env.now msg db row hfind
    refine ⟨hg, ?_⟩
    simp [statsFor, hg]
  · intro env db msg hf he hfind
    have h2 : (syncWarehouses env db).2 = applyErrStatus warehousesE true env.now msg db := by
      simp [syncWarehouses, hf, he]
    rw [h2]
    exact getStatus_applyErrStatus_none warehousesE env.now msg db hfind

/-- Witness for C10: a failed products sync after an earlier successful sync of
42 records keeps `record_count = 42` next to the error status. -/
theorem error_upsert_keeps_record_count_witness :
    getStatus (syncProducts pEnvFetchFail dbPrev).2 productsE =
      some { statusRowPrev with
             last_sync := pEnvFetchFail.now,
             status := errStatusStr boomStr } ∧
    (statsFor (syncProducts pEnvFetchFail dbPrev).2 productsE).totalCount =
      statusRowPrev.record_count :=
  error_upsert_keeps_record_count.1 pEnvFetchFail dbPrev boomStr statusRowPrev rfl rfl
    (by decide)
